import Mathlib

/-!
Shallow embedding of `DTMFGenerator.py` (class `DTMF`): a DTMF tone generator
that validates a sequence of (symbol, duration-ms) pairs, synthesizes 16-bit
PCM samples by summing two sinusoids, and writes them to a WAV container.

Python runtime values reaching the validator are modelled by `PyVal`;
exceptions by `Except PyError`. Floats are idealized as real numbers; Python
`int(x)` on a float is truncation toward zero (`pyTrunc`). A raised exception
leaves the object's fields as they were, so methods that mutate state are
modelled as `DTMFState → Except PyError DTMFState`: an `.error` result means
the mutation did not happen.
-/

namespace DTMFGen

/-- Python exception classes raised (or raisable) by the code paths modelled
here. -/
inductive PyError
  | keyError
  | typeError
  | indexError
  | attributeError
  | assertionError
  | valueError
  | structError
deriving DecidableEq, Repr

/-- Python runtime values that can reach `dtmf_sequence_is_valid` /
`generate_raw_data`: strings, ints, lists, tuples and sets (the three
container types in `DTMF.VALID_SEQUENCE_TYPES`). Sets are kept as an element
list; only their type tag matters to the modelled code (subscripting a set
raises `TypeError` before any element is inspected). -/
inductive PyVal
  | pyStr (s : String)
  | pyInt (n : ℤ)
  | pyList (xs : List PyVal)
  | pyTuple (xs : List PyVal)
  | pySet (xs : List PyVal)

/-- Python `type(v) == str`. -/
def PyVal.isStr : PyVal → Bool
  | .pyStr _ => true
  | _ => false

/-- Python `type(v) == int`. -/
def PyVal.isInt : PyVal → Bool
  | .pyInt _ => true
  | _ => false

/-- Python `type(v) == list`. -/
def PyVal.isList : PyVal → Bool
  | .pyList _ => true
  | _ => false

/-- Python `type(item) in DTMF.VALID_SEQUENCE_TYPES` where
`VALID_SEQUENCE_TYPES = [list, tuple, set]`. -/
def PyVal.isValidSequenceType : PyVal → Bool
  | .pyList _ => true
  | .pyTuple _ => true
  | .pySet _ => true
  | _ => false

/-- Python subscripting `v[i]` for a natural index: lists, tuples and strings
index into their elements (`IndexError` past the end); sets and the scalar
types are not subscriptable (`TypeError`). -/
def PyVal.subscript : PyVal → ℕ → Except PyError PyVal
  | .pyList xs, i =>
      match xs.get? i with
      | some v => .ok v
      | none => .error .indexError
  | .pyTuple xs, i =>
      match xs.get? i with
      | some v => .ok v
      | none => .error .indexError
  | .pyStr s, i =>
      match s.data.get? i with
      | some c => .ok (.pyStr (String.mk [c]))
      | none => .error .indexError
  | _, _ => .error .typeError

/-- `ROW_FREQ = (697, 770, 852, 941)`. -/
def ROW_FREQ : List ℕ := [697, 770, 852, 941]

/-- `COL_FREQ = (1209, 1336, 1477, 1633)`. -/
def COL_FREQ : List ℕ := [1209, 1336, 1477, 1633]

/-- `SAMPLE_RATE = 44100`. -/
def SAMPLE_RATE : ℕ := 44100

/-- `SAMPLE_WIDTH = 2` (bytes per sample declared in the WAV header). -/
def SAMPLE_WIDTH : ℕ := 2

/-- `NUMBER_OF_CHANNELS = 1`. -/
def NUMBER_OF_CHANNELS : ℕ := 1

/-- The module-level dict `FREQUENCY_MAP`, as the association list of its 17
key/value assignments. -/
def FREQUENCY_MAP : List (String × (ℕ × ℕ)) :=
  [("1", (697, 1209)), ("2", (697, 1336)), ("3", (697, 1477)), ("A", (697, 1633)),
   ("4", (770, 1209)), ("5", (770, 1336)), ("6", (770, 1477)), ("B", (770, 1633)),
   ("7", (852, 1209)), ("8", (852, 1336)), ("9", (852, 1477)), ("C", (852, 1633)),
   ("*", (941, 1209)), ("0", (941, 1336)), ("#", (941, 1477)), ("D", (941, 1633)),
   ("S", (0, 0))]

/-- Python dict lookup `FREQUENCY_MAP[key]` for a string key: the value, or
`KeyError` when the key is absent. -/
def freqLookupStr (key : String) : Except PyError (ℕ × ℕ) :=
  match (FREQUENCY_MAP.find? fun kv => kv.1 = key) with
  | some kv => .ok kv.2
  | none => .error .keyError

/-- Python dict lookup `FREQUENCY_MAP[key]` for a general value: non-string
keys are never present (hashable ones miss with `KeyError`, unhashable
containers raise `TypeError`). -/
def freqLookup : PyVal → Except PyError (ℕ × ℕ)
  | .pyStr key => freqLookupStr key
  | .pyInt _ => .error .keyError
  | .pyTuple _ => .error .keyError
  | _ => .error .typeError

/-- The per-item half of `DTMF.dtmf_sequence_is_valid`: the loop
`for item in input_list: if type(item[0]) != str or type(item[1]) != int:
return False`. Python `or` short-circuits, so `item[1]` is only evaluated
when `item[0]` is a string; subscripting can itself raise (`IndexError` for
too-short items, `TypeError` for sets). -/
def validateItems : List PyVal → Except PyError Bool
  | [] => .ok true
  | item :: rest => do
      let x0 ← item.subscript 0
      if !x0.isStr then
        .ok false
      else do
        let x1 ← item.subscript 1
        if !x1.isInt then
          .ok false
        else
          validateItems rest

/-- `DTMF.dtmf_sequence_is_valid(input_list)`: `False` unless the top-level
value is a `list`, every element is a `list`/`tuple`/`set`, and every
element's first two components are a `str` and an `int`. -/
def dtmf_sequence_is_valid (input_list : PyVal) : Except PyError Bool :=
  match input_list with
  | .pyList items =>
      if (items.map PyVal.isValidSequenceType).count false ≠ 0 then
        .ok false
      else
        validateItems items
  | _ => .ok false

/-- The `dtmf_sequence` property setter. `cur` is the current
`_dtmf_sequence`; the result is the new `_dtmf_sequence`. A string input is
first decoded by `self.parse_json_string` (`json.loads`, an external library
call supplied here as the `parseJson` parameter); a non-list (after optional
decoding) or an invalid list leaves the stored sequence unchanged, with no
exception raised. -/
def dtmf_sequence_setter (parseJson : String → Except PyError PyVal)
    (cur : Option PyVal) (input_sequence : PyVal) :
    Except PyError (Option PyVal) := do
  let v ← match input_sequence with
    | .pyStr s => parseJson s
    | v => pure v
  match v with
  | .pyList _ => do
      let ok ← dtmf_sequence_is_valid v
      if ok then pure (some v) else pure cur
  | _ => pure cur

/-- `int(SAMPLE_RATE * _duration_in_ms / 1000)` from `generate_tone`.
Python computes this with float division and truncates toward zero; for
every duration of magnitude below about 10^9 ms the float result truncates
to the same integer as exact truncated division, which is what `Int.tdiv`
computes. -/
def number_of_samples (duration_in_ms : ℤ) : ℕ :=
  ((44100 * duration_in_ms).tdiv 1000).toNat

/-- Python `int(x)` applied to a float: truncation toward zero
(floor for non-negative values, ceiling for negative ones). -/
noncomputable def pyTrunc (x : ℝ) : ℤ :=
  if 0 ≤ x then ⌊x⌋ else ⌈x⌉

/-- One sample from the loop body of `generate_tone`:
`p = i * 1.0 / SAMPLE_RATE;
int((sin(p * f1 * pi * 2) + sin(p * f2 * pi * 2)) / 2 * scale)` with
`scale = 32767`, the float arithmetic idealized over the reals. -/
noncomputable def tone_sample (f1 f2 : ℕ) (i : ℕ) : ℤ :=
  pyTrunc
    ((Real.sin ((i : ℝ) / 44100 * (f1 : ℝ) * Real.pi * 2) +
      Real.sin ((i : ℝ) / 44100 * (f2 : ℝ) * Real.pi * 2)) / 2 * 32767)

/-- `DTMF.generate_tone(f1, f2, _duration_in_ms)`: after the two asserts
(`f1 in ROW_FREQ or f1 == 0`, `f2 in COL_FREQ or f2 == 0`, an
`AssertionError` when violated), the list of `number_of_samples` samples. -/
noncomputable def generate_tone (f1 f2 : ℕ) (duration_in_ms : ℤ) :
    Except PyError (List ℤ) :=
  if f1 ∈ ROW_FREQ ∨ f1 = 0 then
    if f2 ∈ COL_FREQ ∨ f2 = 0 then
      .ok ((List.range (number_of_samples duration_in_ms)).map (tone_sample f1 f2))
    else .error .assertionError
  else .error .assertionError

/-- The loop of `DTMF.generate_raw_data`:
`for tone_tuple in self._dtmf_sequence: key = tone_tuple[0];
tone_duration = tone_tuple[1]; f1 = FREQUENCY_MAP[key][0];
f2 = FREQUENCY_MAP[key][1]; _data += self.generate_tone(f1, f2, tone_duration)`.
A non-int duration would make the float arithmetic in `generate_tone` raise
`TypeError`; that path is unreachable from validated sequences. -/
noncomputable def generate_raw_data_loop : List PyVal → Except PyError (List ℤ)
  | [] => .ok []
  | tone_tuple :: rest => do
      let key ← tone_tuple.subscript 0
      let dur ← tone_tuple.subscript 1
      let fp ← freqLookup key
      let durInt ← match dur with
        | .pyInt n => pure n
        | _ => .error .typeError
      let tone ← generate_tone fp.1 fp.2 durInt
      let restData ← generate_raw_data_loop rest
      pure (tone ++ restData)

/-- The two instance fields of a `DTMF` object: `_dtmf_sequence` and
`_raw_data` (both `None` after `DTMF.__init__` with no arguments). -/
structure DTMFState where
  _dtmf_sequence : Option PyVal
  _raw_data : Option (List ℤ)

/-- `DTMF.generate_raw_data(self)`: raises `AttributeError` when
`_dtmf_sequence is None`; otherwise runs the synthesis loop and stores the
concatenated samples in `_raw_data` (only after the whole loop succeeds —
an exception part-way leaves `_raw_data` untouched, which the `Except`
result models: `.error` means no field was updated). -/
noncomputable def generate_raw_data (st : DTMFState) :
    Except PyError DTMFState :=
  match st._dtmf_sequence with
  | none => .error .attributeError
  | some seq =>
      match seq with
      | .pyList items => do
          let data ← generate_raw_data_loop items
          pure { st with _raw_data := some data }
      | _ => .error .typeError

/-- `struct.pack('i', x)`: the four little-endian bytes of the 32-bit
two's-complement encoding of `x` (`struct.error` when out of range). -/
def pack_i (x : ℤ) : Except PyError (List ℕ) :=
  if -(2 ^ 31) ≤ x ∧ x < 2 ^ 31 then
    .ok [(x % 2 ^ 32).toNat % 256, (x % 2 ^ 32).toNat / 256 % 256,
         (x % 2 ^ 32).toNat / 256 ^ 2 % 256, (x % 2 ^ 32).toNat / 256 ^ 3 % 256]
  else .error .structError

/-- What `DTMF.save_wave_file` hands to the `wave` library: the declared
header parameters and, for each `writeframes` call, the packed bytes of one
sample. -/
structure WavFile where
  nchannels : ℕ
  sampwidth : ℕ
  framerate : ℕ
  nframes : ℕ
  comptype : String
  compname : String
  frames : List (List ℕ)
deriving DecidableEq, Repr

/-- `DTMF.save_wave_file(self, file_path)`: regenerates `_raw_data` when it
is `None` or empty, declares the header constants, then packs each sample
with `struct.pack('i', i)` and writes it. The returned `WavFile` is the
content handed to the `wave` module for the destination file. -/
noncomputable def save_wave_file (st : DTMFState) :
    Except PyError (DTMFState × WavFile) := do
  let st ←
    if (match st._raw_data with | none => true | some l => l.length < 1) then
      generate_raw_data st
    else
      pure st
  match st._raw_data with
  | some raw => do
      let frames ← raw.mapM pack_i
      pure (st,
        { nchannels := NUMBER_OF_CHANNELS
          sampwidth := SAMPLE_WIDTH
          framerate := SAMPLE_RATE
          nframes := raw.length
          comptype := "NONE"
          compname := "Uncompressed"
          frames := frames })
  | none => .error .attributeError

/-- `DTMF.create_dtmf_wave_file(self, input_sequence, file_path)` with the
default `dump_to_csv=False`: assign the sequence through the setter, run
`generate_raw_data`, then `save_wave_file`. (The `os.remove` of the debug
csv touches no modelled state.) An `.error` result means no WAV file was
written for this call. -/
noncomputable def create_dtmf_wave_file
    (parseJson : String → Except PyError PyVal)
    (st : DTMFState) (input_sequence : PyVal) :
    Except PyError (DTMFState × WavFile) := do
  let seq ← dtmf_sequence_setter parseJson st._dtmf_sequence input_sequence
  let st1 : DTMFState := { st with _dtmf_sequence := seq }
  let st2 ← generate_raw_data st1
  save_wave_file st2

/-- A typed sequence entry (symbol, duration) rendered as the Python tuple
the demo code passes in. -/
def entryVal (e : String × ℤ) : PyVal :=
  .pyTuple [.pyStr e.1, .pyInt e.2]

/-- A typed tone sequence rendered as a Python list of tuples. -/
def seqVal (l : List (String × ℤ)) : PyVal :=
  .pyList (l.map entryVal)

/-- The PCM sub-buffer one entry contributes: its symbol's frequency pair
fed to the synthesis loop ([] as a junk value for unmapped symbols, which
`generate_raw_data` never reaches). -/
noncomputable def toneBuffer (e : String × ℤ) : List ℤ :=
  match (FREQUENCY_MAP.find? fun kv => kv.1 = e.1) with
  | some kv => (List.range (number_of_samples e.2)).map (tone_sample kv.2.1 kv.2.2)
  | none => []

/-- A json parser stand-in for theorems whose inputs are not strings (the
parser is then never called). -/
def noParse : String → Except PyError PyVal :=
  fun _ => .error .valueError

/-- Whether an entry symbol has a `FREQUENCY_MAP` binding. -/
def symbolMapped (e : String × ℤ) : Bool :=
  (FREQUENCY_MAP.find? fun kv => kv.1 = e.1).isSome

/-!  Helper lemmas shared by the claim theorems.  -/

theorem freq_map_row_col :
    ∀ kv ∈ FREQUENCY_MAP,
      (kv.2.1 ∈ ROW_FREQ ∨ kv.2.1 = 0) ∧ (kv.2.2 ∈ COL_FREQ ∨ kv.2.2 = 0) := by
  decide

theorem find_freq_row_col (s : String) (kv : String × (ℕ × ℕ))
    (h : (FREQUENCY_MAP.find? fun kv => kv.1 = s) = some kv) :
    (kv.2.1 ∈ ROW_FREQ ∨ kv.2.1 = 0) ∧ (kv.2.2 ∈ COL_FREQ ∨ kv.2.2 = 0) :=
  freq_map_row_col kv (List.mem_of_find?_eq_some h)

theorem generate_tone_ok (f1 f2 : ℕ) (d : ℤ) (h1 : f1 ∈ ROW_FREQ ∨ f1 = 0)
    (h2 : f2 ∈ COL_FREQ ∨ f2 = 0) :
    generate_tone f1 f2 d =
      .ok ((List.range (number_of_samples d)).map (tone_sample f1 f2)) := by
  rw [generate_tone, if_pos h1, if_pos h2]

theorem number_of_samples_of_neg (d : ℤ) (hd : d < 0) : number_of_samples d = 0 := by
  have h1 : (44100 * d).tdiv 1000 ≤ 0 := by
    have : 44100 * d = -(44100 * (-d)) := by ring
    rw [this, Int.neg_tdiv]
    have : 0 ≤ (44100 * (-d)).tdiv 1000 :=
      Int.tdiv_nonneg (by nlinarith) (by norm_num)
    omega
  rw [number_of_samples]
  omega

theorem validateItems_entries (l : List (String × ℤ)) :
    validateItems (l.map entryVal) = .ok true := by
  induction l with
  | nil => rfl
  | cons e l ih =>
      simpa [validateItems, entryVal, PyVal.subscript, PyVal.isStr, PyVal.isInt] using ih

theorem seqVal_valid (l : List (String × ℤ)) :
    dtmf_sequence_is_valid (seqVal l) = .ok true := by
  rw [seqVal, dtmf_sequence_is_valid]
  have hcount : ((l.map entryVal).map PyVal.isValidSequenceType).count false = 0 := by
    rw [List.count_eq_zero]
    intro hmem
    rw [List.mem_map] at hmem
    obtain ⟨v, hv, hfalse⟩ := hmem
    rw [List.mem_map] at hv
    obtain ⟨e, _, rfl⟩ := hv
    simp [entryVal, PyVal.isValidSequenceType] at hfalse
  rw [if_neg (by simp only [List.map_map] at hcount; simpa using hcount)]
  exact validateItems_entries l

theorem setter_stores_seqVal (p : String → Except PyError PyVal)
    (cur : Option PyVal) (l : List (String × ℤ)) :
    dtmf_sequence_setter p cur (seqVal l) = .ok (some (seqVal l)) := by
  have hv := seqVal_valid l
  simp [dtmf_sequence_setter, seqVal] at hv ⊢
  rw [hv]
  rfl

theorem exceptBind_ok {α β : Type} (a : α) (f : α → Except PyError β) :
    (Except.ok a >>= f) = f a := rfl

theorem exceptBind_error {α β : Type} (e : PyError) (f : α → Except PyError β) :
    ((Except.error e : Except PyError α) >>= f) = .error e := rfl

theorem exceptPure {α : Type} (a : α) : (pure a : Except PyError α) = .ok a := rfl

theorem toneBuffer_eq (e : String × ℤ) (kv : String × (ℕ × ℕ))
    (h : (FREQUENCY_MAP.find? fun kv => kv.1 = e.1) = some kv) :
    toneBuffer e = (List.range (number_of_samples e.2)).map (tone_sample kv.2.1 kv.2.2) := by
  rw [toneBuffer, h]

theorem generate_raw_data_loop_eq (l : List (String × ℤ))
    (h : ∀ e ∈ l, symbolMapped e = true) :
    generate_raw_data_loop (l.map entryVal) = .ok (l.map toneBuffer).flatten := by
  induction l with
  | nil => rfl
  | cons e l ih =>
      have he := h e (List.mem_cons_self e l)
      rw [symbolMapped, Option.isSome_iff_exists] at he
      obtain ⟨kv, hkv⟩ := he
      have hrc := find_freq_row_col e.1 kv hkv
      have hloop := ih fun x hx => h x (List.mem_cons_of_mem e hx)
      have h0 : (entryVal e).subscript 0 = .ok (.pyStr e.1) := rfl
      have h1 : (entryVal e).subscript 1 = .ok (.pyInt e.2) := rfl
      have h2 : freqLookup (.pyStr e.1) = .ok kv.2 := by
        rw [freqLookup, freqLookupStr, hkv]
      have h3 := generate_tone_ok kv.2.1 kv.2.2 e.2 hrc.1 hrc.2
      have h4 := toneBuffer_eq e kv hkv
      simp only [List.map_cons, List.flatten_cons, generate_raw_data_loop, h0, h1, h2, h3,
        hloop, h4, exceptBind_ok, exceptPure]

theorem generate_raw_data_of_mapped (l : List (String × ℤ)) (r : Option (List ℤ))
    (h : ∀ e ∈ l, symbolMapped e = true) :
    generate_raw_data ⟨some (seqVal l), r⟩ =
      .ok ⟨some (seqVal l), some (l.map toneBuffer).flatten⟩ := by
  rw [generate_raw_data]
  simp only [seqVal, generate_raw_data_loop_eq l h]
  rfl

theorem toneBuffer_length (e : String × ℤ) (h : symbolMapped e = true) :
    (toneBuffer e).length = number_of_samples e.2 := by
  rw [symbolMapped, Option.isSome_iff_exists] at h
  obtain ⟨kv, hkv⟩ := h
  rw [toneBuffer_eq e kv hkv, List.length_map, List.length_range]

theorem generate_raw_data_loop_keyError (l : List (String × ℤ))
    (h : ∃ e ∈ l, symbolMapped e = false) :
    generate_raw_data_loop (l.map entryVal) = .error .keyError := by
  induction l with
  | nil => simp at h
  | cons e l ih =>
      have h0 : (entryVal e).subscript 0 = .ok (.pyStr e.1) := rfl
      have h1 : (entryVal e).subscript 1 = .ok (.pyInt e.2) := rfl
      by_cases he : symbolMapped e = true
      · have htail : ∃ x ∈ l, symbolMapped x = false := by
          obtain ⟨x, hx, hxf⟩ := h
          rcases List.mem_cons.mp hx with rfl | hx2
          · rw [he] at hxf
            cases hxf
          · exact ⟨x, hx2, hxf⟩
        rw [symbolMapped, Option.isSome_iff_exists] at he
        obtain ⟨kv, hkv⟩ := he
        have hrc := find_freq_row_col e.1 kv hkv
        have h2 : freqLookup (.pyStr e.1) = .ok kv.2 := by
          rw [freqLookup, freqLookupStr, hkv]
        have h3 := generate_tone_ok kv.2.1 kv.2.2 e.2 hrc.1 hrc.2
        simp only [List.map_cons, generate_raw_data_loop, h0, h1, h2, h3, ih htail,
          exceptBind_ok, exceptBind_error, exceptPure]
      · have hfind : (FREQUENCY_MAP.find? fun kv => kv.1 = e.1) = none := by
          rw [symbolMapped] at he
          cases hopt : (FREQUENCY_MAP.find? fun kv => kv.1 = e.1) with
          | none => rfl
          | some kv =>
              rw [hopt] at he
              simp at he
        have h2 : freqLookup (.pyStr e.1) = .error .keyError := by
          rw [freqLookup, freqLookupStr, hfind]
        simp only [List.map_cons, generate_raw_data_loop, h0, h1, h2,
          exceptBind_ok, exceptBind_error]

theorem map_tone_sample_zero (n : ℕ) :
    (List.range n).map (tone_sample 0 0) = List.replicate n 0 := by
  refine List.eq_replicate_iff.mpr ⟨by simp, ?_⟩
  intro b hb
  rw [List.mem_map] at hb
  obtain ⟨i, _, rfl⟩ := hb
  simp [tone_sample, pyTrunc]

theorem generate_tone_silence (d : ℤ) :
    generate_tone 0 0 d = .ok (List.replicate (number_of_samples d) 0) := by
  rw [generate_tone_ok 0 0 d (Or.inr rfl) (Or.inr rfl), map_tone_sample_zero]

theorem pyTrunc_bounds {x : ℝ} (h1 : -32767 ≤ x) (h2 : x ≤ 32767) :
    -32767 ≤ pyTrunc x ∧ pyTrunc x ≤ 32767 := by
  have c1 : ((32767 : ℤ) : ℝ) = (32767 : ℝ) := by norm_num
  have c2 : ((-32767 : ℤ) : ℝ) = (-32767 : ℝ) := by norm_num
  rw [pyTrunc]
  split
  · constructor
    · have hf : (0 : ℤ) ≤ ⌊x⌋ := Int.floor_nonneg.mpr (by assumption)
      omega
    · have hf := Int.floor_le_floor (α := ℝ) h2
      rw [← c1, Int.floor_intCast] at hf
      exact hf
  · constructor
    · have hc := Int.ceil_le_ceil (α := ℝ) h1
      rw [← c2, Int.ceil_intCast] at hc
      exact hc
    · have hx : x ≤ 0 := le_of_lt (lt_of_not_ge (by assumption))
      have hc : ⌈x⌉ ≤ (0 : ℤ) := Int.ceil_le.mpr (by exact_mod_cast hx)
      omega

theorem tone_sample_bounds (f1 f2 : ℕ) (i : ℕ) :
    -32767 ≤ tone_sample f1 f2 i ∧ tone_sample f1 f2 i ≤ 32767 := by
  rw [tone_sample]
  have s1l := Real.neg_one_le_sin ((i : ℝ) / 44100 * (f1 : ℝ) * Real.pi * 2)
  have s1u := Real.sin_le_one ((i : ℝ) / 44100 * (f1 : ℝ) * Real.pi * 2)
  have s2l := Real.neg_one_le_sin ((i : ℝ) / 44100 * (f2 : ℝ) * Real.pi * 2)
  have s2u := Real.sin_le_one ((i : ℝ) / 44100 * (f2 : ℝ) * Real.pi * 2)
  exact pyTrunc_bounds (by nlinarith) (by nlinarith)

/-!  Claim theorems.  -/

/-- Claim C2 (amended): a malformed non-string candidate on which
structural validation returns `False` is rejected silently: the setter
raises no exception and leaves the stored sequence unchanged, so no PCM
output can be produced from the rejected candidate. (Validation inspects
only the first two components of an element, so a longer record whose first
two components are a string and an integer is accepted instead — see the
counterexample.) -/
theorem malformed_sequence_silently_ignored
    (p : String → Except PyError PyVal) (cur : Option PyVal) (v : PyVal)
    (hs : v.isStr = false) (hv : dtmf_sequence_is_valid v = .ok false) :
    dtmf_sequence_setter p cur v = .ok cur := by
  cases v with
  | pyStr s => simp [PyVal.isStr] at hs
  | pyList xs =>
      simp only [dtmf_sequence_setter, exceptPure, exceptBind_ok, hv]
      rfl
  | pyInt n => rfl
  | pyTuple xs => rfl
  | pySet xs => rfl

/-- Witness for the amended C2: the non-list candidate `42` is ignored and
the stored sequence stays `None`. -/
theorem malformed_sequence_silently_ignored_witness :
    dtmf_sequence_setter noParse none (.pyInt 42) = .ok none :=
  malformed_sequence_silently_ignored noParse none (.pyInt 42) rfl rfl

/-- Counterexample to claim C2 as stated: the malformed candidate
`[["1", 100, 5]]` (its element is a 3-element record, not a 2-element one)
is neither rejected nor signalled: the setter stores it without raising any
error, and the stored sequence then produces 4410 PCM samples. -/
theorem malformed_record_accepted :
    dtmf_sequence_setter noParse none
        (.pyList [.pyList [.pyStr "1", .pyInt 100, .pyInt 5]]) =
      .ok (some (.pyList [.pyList [.pyStr "1", .pyInt 100, .pyInt 5]])) ∧
    (generate_raw_data
        ⟨some (.pyList [.pyList [.pyStr "1", .pyInt 100, .pyInt 5]]), none⟩).map
        (fun st => (st._raw_data.getD []).length) = .ok 4410 := by
  constructor
  · rfl
  · have h0 : (PyVal.pyList [.pyStr "1", .pyInt 100, .pyInt 5]).subscript 0 =
        .ok (.pyStr "1") := rfl
    have h1 : (PyVal.pyList [.pyStr "1", .pyInt 100, .pyInt 5]).subscript 1 =
        .ok (.pyInt 100) := rfl
    have h2 : freqLookup (.pyStr "1") = .ok (697, 1209) := rfl
    have h3 := generate_tone_ok 697 1209 100 (by decide) (by decide)
    have h5 : number_of_samples 100 = 4410 := rfl
    simp only [generate_raw_data, generate_raw_data_loop, h0, h1, h2, h3, h5,
      exceptBind_ok, exceptPure]
    simp [Except.map]

/-- Claim C1 (code bug): `save_wave_file` declares `SAMPLE_WIDTH = 2` bytes
per sample in the container header but packs every sample with
`struct.pack('i', sample)`, which writes 4 bytes. On the 1-sample buffer
`[0]` the written file declares width 2 while the one written sample chunk
is 4 bytes long. -/
theorem sample_width_mismatch :
    (save_wave_file ⟨none, some [0]⟩).map
        (fun r => (r.2.sampwidth, r.2.frames.map List.length)) =
      .ok (SAMPLE_WIDTH, [4]) ∧ (4 : ℕ) ≠ SAMPLE_WIDTH := by
  constructor
  · rfl
  · decide

/-- Counterexample to claim C3 as stated: for the valid sequence
`[("1", 35)]` the code produces `int(44100 * 35 / 1000) = 1543` samples,
while the claimed count is `round(44100 * 35 / 1000) = round(1543.5) =
1544`. -/
theorem sample_count_round_counterexample :
    (generate_raw_data ⟨some (seqVal [("1", 35)]), none⟩).map
        (fun st => (st._raw_data.getD []).length) = .ok 1543 ∧
    (1543 : ℤ) ≠ round ((44100 * 35 : ℚ) / 1000) := by
  constructor
  · rw [generate_raw_data_of_mapped [("1", 35)] none (by decide)]
    have hl : (toneBuffer ("1", 35)).length = 1543 := by
      rw [toneBuffer_length _ (by decide)]
      rfl
    simp [Except.map, hl]
  · have hr : round ((44100 * 35 : ℚ) / 1000) = 1544 := by
      rw [round_eq]
      norm_num
    rw [hr]
    decide

/-- Claim C3 (amended): for every sequence whose symbols are all mapped,
the output sample count equals the sum over entries of the truncated count
`int(44100 * durationMs / 1000)` — truncation toward zero, not rounding to
nearest. -/
theorem sample_count_truncated (l : List (String × ℤ)) (r : Option (List ℤ))
    (h : ∀ e ∈ l, symbolMapped e = true) :
    (generate_raw_data ⟨some (seqVal l), r⟩).map
        (fun st => (st._raw_data.getD []).length) =
      .ok (l.map fun e => number_of_samples e.2).sum := by
  rw [generate_raw_data_of_mapped l r h]
  have hlen : ((l.map toneBuffer).flatten).length =
      (l.map fun e => number_of_samples e.2).sum := by
    rw [List.length_flatten, List.map_map]
    congr 1
    exact List.map_congr_left fun e he => toneBuffer_length e (h e he)
  simp [Except.map, hlen]

/-- Witness for the amended C3: `[("5", 20)]` yields
`int(44100 * 20 / 1000) = 882` samples. -/
theorem sample_count_truncated_witness :
    (generate_raw_data ⟨some (seqVal [("5", 20)]), none⟩).map
        (fun st => (st._raw_data.getD []).length) = .ok 882 := by
  have h := sample_count_truncated [("5", 20)] none (by decide)
  simpa using h

/-- Claim C9: requesting waveform generation while the stored sequence is
still unset (`_dtmf_sequence is None`) raises `AttributeError` and produces
no output. -/
theorem generate_raw_data_requires_sequence (st : DTMFState)
    (h : st._dtmf_sequence = none) :
    generate_raw_data st = .error .attributeError := by
  rw [generate_raw_data, h]

/-- Witness for C9 at the freshly initialized state. -/
theorem generate_raw_data_requires_sequence_witness :
    generate_raw_data ⟨none, none⟩ = .error .attributeError :=
  generate_raw_data_requires_sequence ⟨none, none⟩ rfl

/-- Claim C10: every well-typed (symbol, duration) list passes
`dtmf_sequence_is_valid` regardless of duration sign, and `generate_tone`
on a negative duration returns an empty sample buffer instead of raising:
negative durations are silently synthesized as nothing. -/
theorem negative_duration_silently_empty :
    (∀ l : List (String × ℤ), dtmf_sequence_is_valid (seqVal l) = .ok true) ∧
    (∀ (f1 f2 : ℕ) (d : ℤ), d < 0 → (f1 ∈ ROW_FREQ ∨ f1 = 0) →
      (f2 ∈ COL_FREQ ∨ f2 = 0) → generate_tone f1 f2 d = .ok []) := by
  refine ⟨seqVal_valid, fun f1 f2 d hd h1 h2 => ?_⟩
  rw [generate_tone_ok f1 f2 d h1 h2, number_of_samples_of_neg d hd]
  rfl

/-- Witness for C10: the list `[("1", -5)]` validates, and a 697/1209 Hz
tone of -5 ms is an empty buffer. -/
theorem negative_duration_silently_empty_witness :
    dtmf_sequence_is_valid (seqVal [("1", -5)]) = .ok true ∧
    generate_tone 697 1209 (-5) = .ok [] :=
  ⟨negative_duration_silently_empty.1 [("1", -5)],
   negative_duration_silently_empty.2 697 1209 (-5) (by norm_num)
     (by decide) (by decide)⟩

/-- Claim C5: silence (symbol S, frequency pair (0, 0)) synthesizes an
all-zero buffer for any duration, and the sequence `[("S", 50)]` yields
exactly 2205 samples, all equal to 0. -/
theorem silence_all_zero :
    (∀ d : ℤ, generate_tone 0 0 d = .ok (List.replicate (number_of_samples d) 0)) ∧
    generate_raw_data ⟨some (seqVal [("S", 50)]), none⟩ =
      .ok ⟨some (seqVal [("S", 50)]), some (List.replicate 2205 0)⟩ := by
  refine ⟨generate_tone_silence, ?_⟩
  rw [generate_raw_data_of_mapped [("S", 50)] none (by decide)]
  have hkv : (FREQUENCY_MAP.find? fun kv => kv.1 = ("S", (50 : ℤ)).1) =
      some ("S", (0, 0)) := by decide
  have hn : number_of_samples 50 = 2205 := by decide
  have hb : toneBuffer ("S", 50) = List.replicate 2205 0 := by
    rw [toneBuffer_eq ("S", 50) ("S", (0, 0)) hkv, map_tone_sample_zero, hn]
  simp only [List.map_cons, List.map_nil, List.flatten_cons, List.flatten_nil,
    List.append_nil, hb]

/-- Claim C6: a sequence containing a symbol with no `FREQUENCY_MAP` entry
makes `generate_raw_data` fail for the whole sequence with `KeyError`
(leaving `_raw_data` unchanged), and `create_dtmf_wave_file` on that
sequence fails the same way before writing any container file. -/
theorem unknown_symbol_fails (l : List (String × ℤ)) (st : DTMFState)
    (p : String → Except PyError PyVal) (r : Option (List ℤ))
    (h : ∃ e ∈ l, symbolMapped e = false) :
    generate_raw_data ⟨some (seqVal l), r⟩ = .error .keyError ∧
    create_dtmf_wave_file p st (seqVal l) = .error .keyError := by
  have hloop := generate_raw_data_loop_keyError l h
  have hgen : ∀ r0 : Option (List ℤ),
      generate_raw_data ⟨some (seqVal l), r0⟩ = .error .keyError := by
    intro r0
    rw [generate_raw_data]
    simp only [seqVal, hloop, exceptBind_error]
  refine ⟨hgen r, ?_⟩
  cases st with
  | mk s0 r0 =>
      rw [create_dtmf_wave_file, setter_stores_seqVal]
      simp only [exceptBind_ok, hgen, exceptBind_error]

/-- Witness for C6 at the unmapped symbol Z. -/
theorem unknown_symbol_fails_witness :
    generate_raw_data ⟨some (seqVal [("Z", 100)]), none⟩ = .error .keyError ∧
    create_dtmf_wave_file noParse ⟨none, none⟩ (seqVal [("Z", 100)]) =
      .error .keyError :=
  unknown_symbol_fails [("Z", 100)] ⟨none, none⟩ noParse none
    ⟨("Z", 100), by decide, by decide⟩

/-- Claim C7: the output waveform is the concatenation, in entry order, of
the per-entry sub-buffers, and generating from a permuted sequence yields
exactly the permuted sub-buffers concatenated in the new order. -/
theorem concatenation_order_preserving :
    (∀ (l : List (String × ℤ)) (r : Option (List ℤ)),
        (∀ e ∈ l, symbolMapped e = true) →
        generate_raw_data ⟨some (seqVal l), r⟩ =
          .ok ⟨some (seqVal l), some (l.map toneBuffer).flatten⟩) ∧
    (∀ (l₁ l₂ : List (String × ℤ)) (r : Option (List ℤ)),
        l₁.Perm l₂ → (∀ e ∈ l₁, symbolMapped e = true) →
        generate_raw_data ⟨some (seqVal l₂), r⟩ =
          .ok ⟨some (seqVal l₂), some (l₂.map toneBuffer).flatten⟩) := by
  refine ⟨generate_raw_data_of_mapped, fun l₁ l₂ r hperm h => ?_⟩
  exact generate_raw_data_of_mapped l₂ r fun e he => h e (hperm.mem_iff.mpr he)

/-- Witness for C7: swapping the two entries of `[("1", 1), ("S", 2)]`
produces the swapped concatenation. -/
theorem concatenation_order_preserving_witness :
    generate_raw_data ⟨some (seqVal [("S", 2), ("1", 1)]), none⟩ =
      .ok ⟨some (seqVal [("S", 2), ("1", 1)]),
           some ([("S", 2), ("1", 1)].map toneBuffer).flatten⟩ :=
  concatenation_order_preserving.2 [("1", 1), ("S", 2)] [("S", 2), ("1", 1)] none
    (by decide) (by decide)

/-- Claim C8: under the assert precondition (f1 is 0 or a row frequency,
f2 is 0 or a column frequency) every sample produced by `generate_tone`
lies within the signed 16-bit range [-32767, 32767]. -/
theorem samples_within_range (f1 f2 : ℕ) (d : ℤ) (l : List ℤ)
    (h1 : f1 ∈ ROW_FREQ ∨ f1 = 0) (h2 : f2 ∈ COL_FREQ ∨ f2 = 0)
    (hok : generate_tone f1 f2 d = .ok l) :
    ∀ x ∈ l, -32767 ≤ x ∧ x ≤ 32767 := by
  rw [generate_tone_ok f1 f2 d h1 h2] at hok
  cases hok
  intro x hx
  rw [List.mem_map] at hx
  obtain ⟨i, _, rfl⟩ := hx
  exact tone_sample_bounds f1 f2 i

/-- Witness for C8 at the silence pair and a 1 ms duration. -/
theorem samples_within_range_witness :
    -32767 ≤ tone_sample 0 0 0 ∧ tone_sample 0 0 0 ≤ 32767 :=
  samples_within_range 0 0 1
    ((List.range (number_of_samples 1)).map (tone_sample 0 0))
    (Or.inr rfl) (Or.inr rfl) (generate_tone_ok 0 0 1 (Or.inr rfl) (Or.inr rfl))
    (tone_sample 0 0 0)
    (List.mem_map.mpr ⟨0, List.mem_range.mpr (by decide), rfl⟩)

theorem sin_770_sample1_bounds :
    3587 / 32767 < Real.sin ((1 : ℝ) / 44100 * 770 * Real.pi * 2) ∧
    Real.sin ((1 : ℝ) / 44100 * 770 * Real.pi * 2) < 3588 / 32767 := by
  have harg : (1 : ℝ) / 44100 * 770 * Real.pi * 2 = Real.pi * (11 / 315) := by
    ring
  rw [harg]
  have hπl : (3.141592 : ℝ) < Real.pi := Real.pi_gt_d6
  have hπu : Real.pi < (3.141593 : ℝ) := Real.pi_lt_d6
  set y := Real.pi * (11 / 315) with hy
  have hyl : (3.141592 : ℝ) * (11 / 315) < y := by
    rw [hy]
    nlinarith
  have hyu : y < (3.141593 : ℝ) * (11 / 315) := by
    rw [hy]
    nlinarith
  have hy0 : 0 < y := by nlinarith
  have hyabs : |y| ≤ 1 := by
    rw [abs_of_pos hy0]
    nlinarith
  have hb := Real.sin_bound hyabs
  rw [abs_of_pos hy0] at hb
  have hb2 := abs_le.mp hb
  have hy3u : y ^ 3 < ((3.141593 : ℝ) * (11 / 315)) ^ 3 :=
    pow_lt_pow_left₀ hyu (le_of_lt hy0) (by norm_num)
  have hy3l : ((3.141592 : ℝ) * (11 / 315)) ^ 3 < y ^ 3 :=
    pow_lt_pow_left₀ hyl (by norm_num) (by norm_num)
  have hy4u : y ^ 4 < ((3.141593 : ℝ) * (11 / 315)) ^ 4 :=
    pow_lt_pow_left₀ hyu (le_of_lt hy0) (by norm_num)
  constructor
  · linarith [hb2.1, hyl, hy3u, hy4u]
  · linarith [hb2.2, hyu, hy3l, hy4u]

theorem tone_sample_770_at_1 : tone_sample 770 0 1 = 1793 := by
  have hB := sin_770_sample1_bounds
  rw [tone_sample]
  have e1 : ((1 : ℕ) : ℝ) / 44100 * ((770 : ℕ) : ℝ) * Real.pi * 2 =
      (1 : ℝ) / 44100 * 770 * Real.pi * 2 := by
    push_cast
    ring
  have e2 : ((1 : ℕ) : ℝ) / 44100 * ((0 : ℕ) : ℝ) * Real.pi * 2 = 0 := by
    push_cast
    ring
  rw [e1, e2, Real.sin_zero, add_zero]
  set s := Real.sin ((1 : ℝ) / 44100 * 770 * Real.pi * 2) with hs
  have hv1 : (1793.5 : ℝ) < s / 2 * 32767 := by nlinarith [hB.1]
  have hv2 : s / 2 * 32767 < 1794 := by nlinarith [hB.2]
  rw [pyTrunc, if_pos (by linarith)]
  apply Int.floor_eq_iff.mpr
  constructor
  · push_cast
    linarith
  · push_cast
    linarith

theorem round_770_at_1 :
    round ((Real.sin (2 * Real.pi * 770 * (((1 : ℕ) : ℝ) / 44100)) +
      Real.sin (2 * Real.pi * 0 * (((1 : ℕ) : ℝ) / 44100))) / 2 * 32767) = 1794 := by
  have hB := sin_770_sample1_bounds
  have e1 : 2 * Real.pi * 770 * (((1 : ℕ) : ℝ) / 44100) =
      (1 : ℝ) / 44100 * 770 * Real.pi * 2 := by
    push_cast
    ring
  have e2 : 2 * Real.pi * 0 * (((1 : ℕ) : ℝ) / 44100) = 0 := by ring
  rw [e1, e2, Real.sin_zero, add_zero]
  set s := Real.sin ((1 : ℝ) / 44100 * 770 * Real.pi * 2) with hs
  have hv1 : (1793.5 : ℝ) < s / 2 * 32767 := by nlinarith [hB.1]
  have hv2 : s / 2 * 32767 < 1794 := by nlinarith [hB.2]
  rw [round_eq]
  apply Int.floor_eq_iff.mpr
  constructor
  · push_cast
    linarith
  · push_cast
    linarith

/-- Claim C4 (amended): under the assert precondition, sample i of the
synthesized buffer equals the Python `int(...)` truncation toward zero of
`(sin(2π f1 t) + sin(2π f2 t)) / 2 * 32767` at `t = i / 44100` — truncation,
not round-to-nearest. -/
theorem sample_value_truncated (f1 f2 : ℕ) (d : ℤ) (i : ℕ)
    (h1 : f1 ∈ ROW_FREQ ∨ f1 = 0) (h2 : f2 ∈ COL_FREQ ∨ f2 = 0)
    (hi : i < number_of_samples d) :
    (generate_tone f1 f2 d).map (fun l => l[i]?) =
      .ok (some (pyTrunc ((Real.sin (2 * Real.pi * (f1 : ℝ) * ((i : ℝ) / 44100)) +
        Real.sin (2 * Real.pi * (f2 : ℝ) * ((i : ℝ) / 44100))) / 2 * 32767))) := by
  rw [generate_tone_ok f1 f2 d h1 h2]
  have ea : (i : ℝ) / 44100 * (f1 : ℝ) * Real.pi * 2 =
      2 * Real.pi * (f1 : ℝ) * ((i : ℝ) / 44100) := by ring
  have eb : (i : ℝ) / 44100 * (f2 : ℝ) * Real.pi * 2 =
      2 * Real.pi * (f2 : ℝ) * ((i : ℝ) / 44100) := by ring
  simp only [Except.map, List.getElem?_map, List.getElem?_range hi, Option.map_some']
  rw [tone_sample, ea, eb]

/-- Witness for the amended C4 at the silence pair, 1 ms, sample 0. -/
theorem sample_value_truncated_witness :
    (generate_tone 0 0 1).map (fun l => l[0]?) =
      .ok (some (pyTrunc ((Real.sin (2 * Real.pi * ((0 : ℕ) : ℝ) * (((0 : ℕ) : ℝ) / 44100)) +
        Real.sin (2 * Real.pi * ((0 : ℕ) : ℝ) * (((0 : ℕ) : ℝ) / 44100))) / 2 * 32767))) :=
  sample_value_truncated 0 0 1 0 (Or.inr rfl) (Or.inr rfl) (by decide)

/-- Counterexample to claim C4 as stated: for the frequency pair (770, 0),
which satisfies the precondition, and a 1 ms duration, the code's buffer
differs from the claimed buffer of round-to-nearest samples: at sample
index 1 the code computes int(sin(2π·770/44100)/2·32767) = 1793 while
round(sin(2π·770/44100)/2·32767) = 1794. -/
theorem sample_value_round_counterexample :
    generate_tone 770 0 1 ≠
      .ok ((List.range (number_of_samples 1)).map fun i : ℕ =>
        round ((Real.sin (2 * Real.pi * 770 * ((i : ℝ) / 44100)) +
          Real.sin (2 * Real.pi * 0 * ((i : ℝ) / 44100))) / 2 * 32767)) := by
  intro hEq
  rw [generate_tone_ok 770 0 1 (by decide) (by decide)] at hEq
  have hmap := Except.ok.inj hEq
  have h1 := congrArg (fun l => l[1]?) hmap
  have hi : (1 : ℕ) < number_of_samples 1 := by decide
  simp only [List.getElem?_map, List.getElem?_range hi, Option.map_some'] at h1
  have h2 := Option.some.inj h1
  rw [tone_sample_770_at_1, round_770_at_1] at h2
  exact absurd h2 (by decide)

end DTMFGen
